import Mathlib

/-!
Verification of the Empathetic Code Reviewer core module
(`code_reviewer.py`): language detection, severity classification,
prompt composition, deterministic mock report synthesis, remote-call
error handling, and constructor-time configuration validation.

Python strings are modelled as Lean `String`; Python `in` (substring),
`str.lower`, `str.splitlines`, `str.strip`, and `str.join` are given
explicit executable models below.
-/

namespace CodeReviewer

/-- Model of Python `str.lower()` (the vocabulary and language names used
by the program are ASCII, where `Char.toLower` agrees with Python). -/
def pyLower (s : String) : String := String.mk (s.data.map Char.toLower)

/-- Model of the Python substring test `pat in s`: some suffix of `s`
has `pat` as a prefix.  The empty pattern is contained in every string,
as in Python. -/
def strContainsSub (s pat : String) : Bool :=
  s.data.tails.any (fun t => List.isPrefixOf pat.data t)

/-- Model of Python `sep.join(parts)`. -/
def pyJoin (sep : String) : List String → String
  | [] => ""
  | [x] => x
  | x :: y :: rest => x ++ sep ++ pyJoin sep (y :: rest)

/-- The line-boundary characters recognised by Python `str.splitlines`. -/
def isLineBreakChar (c : Char) : Bool :=
  c = '\n' || c = '\r' || c = '\x0b' || c = '\x0c' ||
  c = '\x1c' || c = '\x1d' || c = '\x1e' || c = '\x85' ||
  c = '\u2028' || c = '\u2029'

/-- Worker for `pySplitlines`: `acc` holds the current line, reversed;
`afterCR` records that the previous character was a carriage return, so
that a following newline is part of the same `"\r\n"` boundary. -/
def splitlinesGo : List Char → Bool → List Char → List String
  | [], _, acc => if acc.isEmpty then [] else [String.mk acc.reverse]
  | c :: rest, afterCR, acc =>
    if afterCR && c = '\n' then splitlinesGo rest false acc
    else if isLineBreakChar c then
      String.mk acc.reverse :: splitlinesGo rest (c = '\r') []
    else splitlinesGo rest false (c :: acc)

/-- Model of Python `str.splitlines()`: `""` yields `[]`, a trailing
terminator does not produce a final empty line, and `"\r\n"` counts as a
single boundary. -/
def pySplitlines (s : String) : List String := splitlinesGo s.data false []

/-- Whitespace stripped by Python `str.strip()` (the ASCII/Latin-1 part
of the Unicode whitespace class). -/
def isPySpace (c : Char) : Bool :=
  c = ' ' || c = '\t' || c = '\n' || c = '\r' || c = '\x0b' || c = '\x0c' ||
  c = '\x1c' || c = '\x1d' || c = '\x1e' || c = '\x1f' || c = '\x85' || c = '\xa0'

/-- Model of Python `str.strip()`. -/
def pyStrip (s : String) : String :=
  String.mk (((s.data.dropWhile isPySpace).reverse.dropWhile isPySpace).reverse)

/-! ## Severity classification (`_assess_comment_severity`) -/

/-- The harsh-vocabulary list, verbatim from the source. -/
def harsh_words : List String :=
  ["bad", "terrible", "wrong", "stupid", "awful", "horrible", "useless"]

/-- The critical-vocabulary list, verbatim from the source. -/
def critical_words : List String :=
  ["inefficient", "redundant", "unnecessary", "poor", "weak"]

/-- Embedding of `_assess_comment_severity`: lower-case the comment,
return `"harsh"` on any harsh-word hit, else `"critical"` on any
critical-word hit, else `"mild"`. -/
def assess_comment_severity (comment : String) : String :=
  let comment_lower := pyLower comment
  if harsh_words.any (fun w => strContainsSub comment_lower w) then "harsh"
  else if critical_words.any (fun w => strContainsSub comment_lower w) then "critical"
  else "mild"

/-- Written from the spec wording of §4.2 (case-insensitive substring
search, harsh vocabulary first, then critical, else mild), for
comparison with `assess_comment_severity`. -/
def assess_comment_severity_spec (comment : String) : String :=
  if harsh_words.any (fun w => strContainsSub (pyLower comment) w) then "harsh"
  else if critical_words.any (fun w => strContainsSub (pyLower comment) w) then "critical"
  else "mild"

/-! ## Language detection (`_detect_language`) -/

/-- Embedding of `_detect_language`: ordered substring checks, first
match wins. -/
def detect_language (code_snippet : String) : String :=
  if strContainsSub code_snippet "def " && strContainsSub code_snippet ":" then "Python"
  else if strContainsSub code_snippet "function" && strContainsSub code_snippet "\x7b" then "JavaScript"
  else if strContainsSub code_snippet "public class" || strContainsSub code_snippet "private " then "Java"
  else if strContainsSub code_snippet "#include" || strContainsSub code_snippet "int main" then "C++"
  else if strContainsSub code_snippet "func " && strContainsSub code_snippet "\x7b" then "Go"
  else "Unknown"

/-- Written from the spec wording of §4.1 (the six ordered checks,
returning the first match), for comparison with `detect_language`. -/
def detect_language_spec (code : String) : String :=
  if strContainsSub code "def " = true ∧ strContainsSub code ":" = true then "Python"
  else if strContainsSub code "function" = true ∧ strContainsSub code "\x7b" = true then "JavaScript"
  else if strContainsSub code "public class" = true ∨ strContainsSub code "private " = true then "Java"
  else if strContainsSub code "#include" = true ∨ strContainsSub code "int main" = true then "C++"
  else if strContainsSub code "func " = true ∧ strContainsSub code "\x7b" = true then "Go"
  else "Unknown"

/-! ## Mock report synthesis (`_create_mock_report`) -/

/-- The per-comment "why" sentence, a three-way switch on severity,
verbatim from the source. -/
def mockWhy (severity : String) : String :=
  if severity = "harsh" then
    "The suggestion aims to improve reliability and readability while keeping your original intent."
  else if severity = "critical" then
    "This change balances readability and efficiency based on common best practices."
  else
    "A small tweak can improve maintainability without changing behavior."

/-- The snippet line placed in the suggested-improvement fence:
`code_snippet.splitlines()[0] if code_snippet else "# (no code provided)"`. -/
def mockImprovementLine (code_snippet : String) : String :=
  if code_snippet ≠ "" then (pySplitlines code_snippet).headD ""
  else "# (no code provided)"

/-- The lines appended by one iteration of the `_create_mock_report`
loop, for 1-based index `i`: header quoting the comment, rephrasing,
why, the suggested-improvement fence, learn-more, separator. -/
def mockCommentBlock (code_snippet : String) (language : String)
    (i : Nat) (comment severity : String) : List String :=
  [ "### Analysis of Comment " ++ toString i ++ ": \"" ++ comment ++ "\"",
    "",
    "* **Positive Rephrasing:** Nice progress here! Let\x27s refine this area for clarity and performance.",
    "",
    "* **The \x27Why\x27:** " ++ mockWhy severity,
    "",
    "* **Suggested Improvement:**",
    "```" ++ pyLower language,
    "# Example improvement (mock)\n# Replace with a specific change based on context",
    mockImprovementLine code_snippet,
    "```",
    "",
    "* **Learn More:** Consider consulting your team\x27s style guide or official docs.",
    "\n---\n" ]

/-- The blocks produced by `enumerate(zip(review_comments, severity_levels), start=i)`. -/
def mockBlocks (code_snippet language : String) :
    Nat → List (String × String) → List (List String)
  | _, [] => []
  | i, (comment, severity) :: rest =>
    mockCommentBlock code_snippet language i comment severity ::
      mockBlocks code_snippet language (i + 1) rest

/-- The closing overall-summary paragraph, verbatim from the source
(two adjacent Python string literals, concatenated). -/
def overallSummaryText : String :=
  "Great work pushing this forward! With a few focused adjustments, your code will be clearer and easier to maintain. Keep iterating—you\x27re on the right track!"

/-- The `lines` list built by `_create_mock_report` before the final
`"\n".join`. -/
def mockReportLines (code_snippet : String) (review_comments : List String)
    (language : String) (severity_levels : List String) : List String :=
  "---" :: ((mockBlocks code_snippet language 1 (review_comments.zip severity_levels)).flatten
    ++ ["**Overall Summary**\n", overallSummaryText])

/-- Embedding of `_create_mock_report`. -/
def create_mock_report (code_snippet : String) (review_comments : List String)
    (language : String) (severity_levels : List String) : String :=
  pyJoin "\n" (mockReportLines code_snippet review_comments language severity_levels)

/-! ## Prompt composition (`_create_detailed_prompt`) -/

/-- The `comment_analysis` lines built by the prompt composer: each is
the 1-based index, the quoted comment, and its severity tag, with the
index counting from `i0`. -/
def commentAnalysisLines : Nat → List (String × String) → List String
  | _, [] => []
  | i0, (comment, severity) :: rest =>
    (toString (i0 + 1) ++ ". \"" ++ comment ++ "\" (Severity: " ++ severity ++ ")")
      :: commentAnalysisLines (i0 + 1) rest

/-- Embedding of `_create_detailed_prompt`: the f-string user payload,
with the snippet in a fenced block tagged `language.lower()`, the
enumerated comment-analysis lines, and the literal instruction template. -/
def create_detailed_prompt (code_snippet : String) (review_comments : List String)
    (language : String) (severity_levels : List String) : String :=
  "\nPlease transform the following code review into an empathetic, educational report.\n\n**Code Snippet (" ++ language ++ "):**\n"
  ++ ("```" ++ pyLower language ++ "\n")
  ++ code_snippet
  ++ "\n```\n\n**Original Review Comments:**\n"
  ++ pyJoin "\n" (commentAnalysisLines 0 (review_comments.zip severity_levels))
  ++ "\n\n**Instructions:**\nFor each original comment, create a markdown section with the following structure:\n\n---\n### Analysis of Comment: \"[original comment]\"\n\n* **Positive Rephrasing:** [Rewrite the comment in an encouraging, supportive way that acknowledges effort while suggesting improvement]\n\n* **The \x27Why\x27:** [Explain the underlying software engineering principle, performance concern, or best practice. Include specific technical reasoning]\n\n* **Suggested Improvement:**\n"
  ++ ("```" ++ pyLower language ++ "\n")
  ++ "[Provide concrete code example showing the recommended fix]\n```\n\n* **Learn More:** [If applicable, mention relevant documentation, style guides, or resources (e.g., PEP 8 for Python, MDN for JavaScript)]\n\n---\n\n**Additional Requirements:**\n1. Adjust your tone based on the severity of each original comment\n2. For harsh comments, be extra gentle and encouraging\n3. For critical comments, be supportive but educational\n4. For mild comments, be friendly and collaborative\n\n5. End with a \"**Overall Summary**\" section that:\n   - Acknowledges the developer\x27s effort\n   - Summarizes the key improvements\n   - Encourages continued learning and growth\n   - Maintains a positive, motivational tone\n\nPlease ensure the response is well-formatted markdown and maintains a consistently empathetic tone throughout.\n"


/-- The composed prompt as the list of segments the template emits,
one per template line, with the snippet, the detected language, and
the comment-analysis lines spliced in at their template positions.
`create_detailed_prompt_eq_lines` proves that joining these segments
with a newline reproduces `create_detailed_prompt` byte for byte. -/
def promptLines (code_snippet : String) (review_comments : List String)
    (language : String) (severity_levels : List String) : List String :=
  [ "",
    "Please transform the following code review into an empathetic, educational report.",
    "",
    "**Code Snippet (" ++ language ++ "):**",
    "```" ++ pyLower language,
    code_snippet,
    "```",
    "",
    "**Original Review Comments:**" ]
  ++ commentAnalysisLines 0 (review_comments.zip severity_levels)
  ++ [ "",
    "**Instructions:**",
    "For each original comment, create a markdown section with the following structure:",
    "",
    "---",
    "### Analysis of Comment: \"[original comment]\"",
    "",
    "* **Positive Rephrasing:** [Rewrite the comment in an encouraging, supportive way that acknowledges effort while suggesting improvement]",
    "",
    "* **The \x27Why\x27:** [Explain the underlying software engineering principle, performance concern, or best practice. Include specific technical reasoning]",
    "",
    "* **Suggested Improvement:**",
    "```" ++ pyLower language,
    "[Provide concrete code example showing the recommended fix]",
    "```",
    "",
    "* **Learn More:** [If applicable, mention relevant documentation, style guides, or resources (e.g., PEP 8 for Python, MDN for JavaScript)]",
    "",
    "---",
    "",
    "**Additional Requirements:**",
    "1. Adjust your tone based on the severity of each original comment",
    "2. For harsh comments, be extra gentle and encouraging",
    "3. For critical comments, be supportive but educational",
    "4. For mild comments, be friendly and collaborative",
    "",
    "5. End with a \"**Overall Summary**\" section that:",
    "   - Acknowledges the developer\x27s effort",
    "   - Summarizes the key improvements",
    "   - Encourages continued learning and growth",
    "   - Maintains a positive, motivational tone",
    "",
    "Please ensure the response is well-formatted markdown and maintains a consistently empathetic tone throughout.",
    "" ]

/-! ## Remote backend call (`_call_azure_openai`) and the pipeline -/

/-- The observable outcome of the single `requests.post` call: either the
post itself raised (timeout, network failure), or a response arrived with
a status code, a body text, and the result of extracting
`json()["choices"][0]["message"]["content"]` (`Except.error` when the
body is unparseable or lacks the expected shape). -/
inductive CallOutcome where
  | response (status : Nat) (contentParse : Except String String) (text : String)
  | netError (cause : String)

/-- Embedding of `_call_azure_openai` given the outcome of the HTTP
call: on status 200 the extracted content (or the extraction error), on
any other status the `RuntimeError` message built by the source. -/
def call_azure_openai : CallOutcome → Except String String
  | .netError cause => .error cause
  | .response status contentParse text =>
    if status = 200 then contentParse
    else .error ("Azure OpenAI API error: " ++ toString status ++ " - " ++ text)

/-- Embedding of `generate_empathetic_review`: validation in source
order, then detection, per-comment classification, prompt composition,
then either the mock report or the remote call whose result is stripped;
any remote exception is re-raised as `"Failed to generate review: ..."`. -/
def generate_empathetic_review (use_mock : Bool) (outcome : CallOutcome)
    (code_snippet : String) (review_comments : List String) : Except String String :=
  if code_snippet = "" then .error "code_snippet is required"
  else if review_comments = [] then .error "review_comments list cannot be empty"
  else
    let language := detect_language code_snippet
    let severity_levels := review_comments.map assess_comment_severity
    let _prompt := create_detailed_prompt code_snippet review_comments language severity_levels
    if use_mock then
      .ok (create_mock_report code_snippet review_comments language severity_levels)
    else
      match call_azure_openai outcome with
      | .ok response => .ok (pyStrip response)
      | .error e => .error ("Failed to generate review: " ++ e)

/-! ## Construction-time configuration (`__init__`) -/

/-- The environment variables read by `__init__`; `Option.none` models an
unset variable, `some s` a variable set to `s` (possibly empty). -/
structure Env where
  use_mock_env : Option String
  api_key : Option String
  endpoint : Option String
  api_version : Option String
  deployment_name : Option String

/-- Python truthiness of `os.getenv(var)`: falsy when unset or empty. -/
def getenvTruthy : Option String → Bool
  | none => false
  | some s => s ≠ ""

/-- The required variables paired with their values, in source order. -/
def requiredVars (env : Env) : List (String × Option String) :=
  [ ("AZURE_OPENAI_API_KEY", env.api_key),
    ("AZURE_OPENAI_ENDPOINT", env.endpoint),
    ("AZURE_OPENAI_API_VERSION", env.api_version),
    ("AZURE_OPENAI_DEPLOYMENT_NAME", env.deployment_name) ]

/-- `missing_vars = [var for var in required_vars if not os.getenv(var)]`. -/
def missingVars (env : Env) : List String :=
  ((requiredVars env).filter (fun p => !getenvTruthy p.2)).map (fun p => p.1)

/-- The effective mock flag:
`use_mock or os.getenv("USE_MOCK", "").lower() in {"1", "true", "yes"}`. -/
def effectiveUseMock (use_mock : Bool) (env : Env) : Bool :=
  use_mock || ["1", "true", "yes"].contains (pyLower (env.use_mock_env.getD ""))

/-- The constructed reviewer state. -/
structure Reviewer where
  use_mock : Bool
  api_key : Option String
  endpoint : Option String
  api_version : Option String
  deployment_name : Option String

/-- Embedding of `__init__`: store configuration; when the effective
mock flag is off and some required variable is unset or empty, raise
`ValueError` listing the missing names. -/
def initReviewer (use_mock : Bool) (env : Env) : Except String Reviewer :=
  let m := effectiveUseMock use_mock env
  let r : Reviewer :=
    ⟨m, env.api_key, env.endpoint, env.api_version, env.deployment_name⟩
  if m then .ok r
  else if missingVars env = [] then .ok r
  else .error ("Missing required environment variables: " ++ pyJoin ", " (missingVars env))

/-! ## Dynamically-typed entry (`generate_empathetic_review` on raw input)

The source reads `code_snippet` and `review_comments` out of a
`Dict[str, Any]`, so `review_comments` need not be a list.  This small
dynamic-value model captures Python truthiness and iteration to settle
what happens on non-sequence input. -/

/-- A fragment of Python runtime values, enough for the validation and
classification paths. -/
inductive PyVal where
  | vstr (s : String)
  | vlist (l : List PyVal)
  | vint (n : Int)
  | vnone

/-- The exceptions the dynamic paths can raise. -/
inductive PyErr where
  | valueError (msg : String)
  | typeError (msg : String)
  | attributeError (msg : String)
deriving DecidableEq

/-- Python truthiness (`not x` negates this). -/
def PyVal.truthy : PyVal → Bool
  | .vstr s => s ≠ ""
  | .vlist l => !l.isEmpty
  | .vint n => n ≠ 0
  | .vnone => false

/-- Python iteration: lists yield their elements, strings their
characters (as one-character strings); integers and `None` raise
`TypeError`. -/
def pyIter : PyVal → Except PyErr (List PyVal)
  | .vlist l => .ok l
  | .vstr s => .ok (s.data.map (fun c => .vstr (String.mk [c])))
  | .vint _ => .error (.typeError "int object is not iterable")
  | .vnone => .error (.typeError "NoneType object is not iterable")

/-- `[self._assess_comment_severity(comment) for comment in items]`,
also counting how many classifications complete: a non-string element
raises `AttributeError` inside `comment.lower()` before being counted. -/
def classifyAll : List PyVal → Nat × Except PyErr (List String)
  | [] => (0, .ok [])
  | .vstr c :: rest =>
    let (n, r) := classifyAll rest
    (n + 1, r.map (fun l => assess_comment_severity c :: l))
  | _ :: _ => (0, .error (.attributeError "object has no attribute lower"))

/-- Embedding of the mock-mode pipeline on dynamic input, paired with
the number of severity classifications performed.  Mirrors the source
order: truthiness validation of both fields, then language detection,
then the classification comprehension, then the mock report. -/
def generateReviewDyn (codeVal commentsVal : PyVal) :
    (Except PyErr String) × Nat :=
  if !codeVal.truthy then (.error (.valueError "code_snippet is required"), 0)
  else if !commentsVal.truthy then
    (.error (.valueError "review_comments list cannot be empty"), 0)
  else
    match codeVal with
    | .vstr code =>
      let language := detect_language code
      match pyIter commentsVal with
      | .error e => (.error e, 0)
      | .ok items =>
        match classifyAll items with
        | (n, .error e) => (.error e, n)
        | (n, .ok severity_levels) =>
          let comments := items.map (fun v => match v with | .vstr s => s | _ => "")
          (.ok (create_mock_report code comments language severity_levels), n)
    | _ => (.error (.typeError "argument of type is not iterable"), 0)

/-- `true` exactly when the dynamic pipeline failed with the
`ValueError` the spec calls `InvalidInput`. -/
def isInvalidInput : Except PyErr String → Bool
  | .error (.valueError _) => true
  | _ => false

/-! ## Helper lemmas -/

/-- A line-begins-with test over character data (used to talk about
markdown fence lines). -/
def strStartsWith (s p : String) : Bool := List.isPrefixOf p.data s.data

theorem strContainsSub_iff (s pat : String) :
    strContainsSub s pat = true ↔ pat.data <:+: s.data := by
  unfold strContainsSub
  rw [List.any_eq_true]
  constructor
  · rintro ⟨t, ht, hp⟩
    exact List.infix_iff_prefix_suffix.mpr
      ⟨t, List.isPrefixOf_iff_prefix.mp hp, (List.mem_tails _ _).mp ht⟩
  · intro h
    obtain ⟨t, hpre, hsuf⟩ := List.infix_iff_prefix_suffix.mp h
    exact ⟨t, (List.mem_tails _ _).mpr hsuf, List.isPrefixOf_iff_prefix.mpr hpre⟩

theorem strContainsSub_append_right (a b pat : String)
    (h : strContainsSub b pat = true) : strContainsSub (a ++ b) pat = true := by
  rw [strContainsSub_iff] at h ⊢
  obtain ⟨s, t, hst⟩ := h
  exact ⟨a.data ++ s, t, by rw [String.data_append, ← hst]; simp [List.append_assoc]⟩

theorem strContainsSub_append_mid (a b c : String) :
    strContainsSub (a ++ (b ++ c)) b = true := by
  rw [strContainsSub_iff]
  exact ⟨a.data, c.data, by simp [String.data_append, List.append_assoc]⟩

theorem pyJoin_mem_sub (sep : String) (l : List String) (x : String)
    (hx : x ∈ l) : strContainsSub (pyJoin sep l) x = true := by
  induction l with
  | nil => cases hx
  | cons y ys ih =>
    cases ys with
    | nil =>
      rcases List.mem_singleton.mp hx with rfl
      rw [strContainsSub_iff]
      exact List.infix_refl _
    | cons z zs =>
      rcases List.mem_cons.mp hx with rfl | hmem
      · rw [strContainsSub_iff]
        show x.data <:+: (x ++ sep ++ pyJoin sep (z :: zs)).data
        exact ⟨[], (sep ++ pyJoin sep (z :: zs)).data,
          by simp [String.data_append, List.append_assoc]⟩
      · have h := ih hmem
        show strContainsSub (y ++ sep ++ pyJoin sep (z :: zs)) x = true
        rw [String.append_assoc]
        exact strContainsSub_append_right y (sep ++ pyJoin sep (z :: zs))
          x (strContainsSub_append_right sep _ x h)

theorem splitlinesGo_ne_nil (cs : List Char) (acc : List Char)
    (h : cs ≠ [] ∨ acc ≠ []) : splitlinesGo cs false acc ≠ [] := by
  induction cs generalizing acc with
  | nil =>
    rcases h with h | h
    · exact absurd rfl h
    · simp [splitlinesGo, List.isEmpty_iff, h]
  | cons c rest ih =>
    show splitlinesGo (c :: rest) false acc ≠ []
    unfold splitlinesGo
    split
    · rename_i hfalse
      simp at hfalse
    · split
      · simp
      · exact ih (c :: acc) (Or.inr (by simp))

theorem pySplitlines_ne_nil (s : String) (h : s ≠ "") : pySplitlines s ≠ [] := by
  apply splitlinesGo_ne_nil
  left
  intro hd
  exact h (by cases s with | mk l => simpa using congrArg String.mk hd)

theorem splitlinesGo_no_break (cs : List Char) (afterCR : Bool) (acc : List Char)
    (hacc : ∀ ch ∈ acc, isLineBreakChar ch = false) :
    ∀ line ∈ splitlinesGo cs afterCR acc, ∀ ch ∈ line.data, isLineBreakChar ch = false := by
  induction cs generalizing afterCR acc with
  | nil =>
    intro line hline
    unfold splitlinesGo at hline
    split at hline
    · cases hline
    · rcases List.mem_singleton.mp hline with rfl
      intro ch hch
      exact hacc ch (by simpa using List.mem_reverse.mp (by simpa using hch))
  | cons c rest ih =>
    intro line hline
    unfold splitlinesGo at hline
    split at hline
    · exact ih false acc hacc line hline
    · split at hline
      · rcases List.mem_cons.mp hline with rfl | hline2
        · intro ch hch
          exact hacc ch (by simpa using List.mem_reverse.mp (by simpa using hch))
        · exact ih (c = '\r') [] (by simp) line hline2
      · rename_i hbreak
        refine ih false (c :: acc) ?_ line hline
        intro ch hch
        rcases List.mem_cons.mp hch with rfl | hch2
        · simpa using hbreak
        · exact hacc ch hch2

theorem strContainsSub_append_left (a b pat : String)
    (h : strContainsSub a pat = true) : strContainsSub (a ++ b) pat = true := by
  rw [strContainsSub_iff] at h ⊢
  obtain ⟨s, t, hst⟩ := h
  exact ⟨s, t ++ b.data, by rw [String.data_append, ← hst]; simp [List.append_assoc]⟩

theorem strContainsSub_append_end (x t : String) :
    strContainsSub (x ++ t) t = true := by
  rw [strContainsSub_iff, String.data_append]
  exact ⟨x.data, [], by simp⟩

theorem strStartsWith_append_of_left (a b p : String)
    (h : strStartsWith a p = true) : strStartsWith (a ++ b) p = true := by
  unfold strStartsWith at h ⊢
  rw [ List.isPrefixOf_iff_prefix] at h ⊢
  rw [String.data_append]
  exact h.trans (List.prefix_append _ _)

theorem strStartsWith_append_of_short (a b p : String)
    (h : strStartsWith a p = false) (hlen : p.data.length ≤ a.data.length) :
    strStartsWith (a ++ b) p = false := by
  unfold strStartsWith at h ⊢
  rw [String.data_append]
  by_contra hc
  rw [Bool.not_eq_false, List.isPrefixOf_iff_prefix] at hc
  have htake := List.prefix_iff_eq_take.mp hc
  rw [List.take_append_eq_append_take,
      Nat.sub_eq_zero_of_le hlen, List.take_zero, List.append_nil] at htake
  have : p.data <+: a.data := htake ▸ List.take_prefix _ _
  rw [← List.isPrefixOf_iff_prefix] at this
  rw [this] at h
  cases h

theorem ne_of_strStartsWith (a b p : String)
    (ha : strStartsWith a p = true) (hb : strStartsWith b p = false) : a ≠ b := by
  intro h
  rw [h, hb] at ha
  cases ha

theorem mockBlocks_length (code lang : String) :
    ∀ (ps : List (String × String)) (i : Nat), (mockBlocks code lang i ps).length = ps.length := by
  intro ps
  induction ps with
  | nil => intro i; rfl
  | cons p rest ih =>
    intro i
    cases p with
    | mk c s => simp [mockBlocks, ih]

theorem mockBlocks_get? (code lang : String) :
    ∀ (ps : List (String × String)) (i k : Nat),
      (mockBlocks code lang i ps).get? k
        = (ps.get? k).map (fun p => mockCommentBlock code lang (i + k) p.1 p.2) := by
  intro ps
  induction ps with
  | nil => intro i k; cases k <;> rfl
  | cons p rest ih =>
    intro i k
    cases p with
    | mk c s =>
      cases k with
      | zero => rfl
      | succ k0 =>
        show (mockBlocks code lang (i + 1) rest).get? k0 = _
        rw [ih (i + 1) k0]
        have : i + 1 + k0 = i + (k0 + 1) := by omega
        rw [this]
        rfl

theorem mockBlocks_mem (code lang : String) :
    ∀ (ps : List (String × String)) (i : Nat) (b : List String),
      b ∈ mockBlocks code lang i ps →
      ∃ j c s, b = mockCommentBlock code lang j c s := by
  intro ps
  induction ps with
  | nil => intro i b hb; cases hb
  | cons p rest ih =>
    intro i b hb
    cases p with
    | mk c s =>
      rcases List.mem_cons.mp hb with rfl | hb2
      · exact ⟨i, c, s, rfl⟩
      · exact ih (i + 1) b hb2

theorem zip_self_map (f : String → String) :
    ∀ (l : List String), l.zip (l.map f) = l.map (fun c => (c, f c)) := by
  intro l
  induction l with
  | nil => rfl
  | cons x xs ih => simpa [List.zip] using ih

theorem mockImprovementLine_no_break (code : String) :
    ∀ ch ∈ (mockImprovementLine code).data, isLineBreakChar ch = false := by
  unfold mockImprovementLine
  split
  · cases hl : pySplitlines code with
    | nil => decide
    | cons x xs =>
      intro ch hch
      refine splitlinesGo_no_break code.data false [] (by simp) x ?_ ch hch
      rw [show splitlinesGo code.data false [] = pySplitlines code from rfl, hl]
      exact List.mem_cons_self x xs
  · decide

theorem overall_header_ne_improvement (code : String) :
    mockImprovementLine code ≠ "**Overall Summary**\n" := by
  intro h
  have h1 := mockImprovementLine_no_break code '\n' (by rw [h]; decide)
  exact absurd h1 (by decide)

theorem overall_header_not_in_block (code lang : String) (i : Nat)
    (comment severity : String) :
    "**Overall Summary**\n" ∉ mockCommentBlock code lang i comment severity := by
  intro hmem
  simp only [mockCommentBlock, List.mem_cons, List.not_mem_nil, or_false] at hmem
  rcases hmem with h | h | h | h | h | h | h | h | h | h | h | h | h | h
  · refine absurd h.symm (ne_of_strStartsWith _ _ "#" ?_ (by decide))
    repeat apply strStartsWith_append_of_left
    decide
  · exact absurd h (by decide)
  · exact absurd h (by decide)
  · exact absurd h (by decide)
  · refine absurd h.symm (ne_of_strStartsWith _ _ "* " ?_ (by decide))
    apply strStartsWith_append_of_left
    decide
  · exact absurd h (by decide)
  · exact absurd h (by decide)
  · refine absurd h.symm (ne_of_strStartsWith _ _ "`" ?_ (by decide))
    apply strStartsWith_append_of_left
    decide
  · exact absurd h (by decide)
  · exact absurd h.symm (overall_header_ne_improvement code)
  · exact absurd h (by decide)
  · exact absurd h (by decide)
  · exact absurd h (by decide)
  · exact absurd h (by decide)

theorem overall_header_not_in_flatten (code lang : String)
    (ps : List (String × String)) (i : Nat) :
    "**Overall Summary**\n" ∉ (mockBlocks code lang i ps).flatten := by
  intro h
  rw [List.mem_flatten] at h
  obtain ⟨b, hb, hmem⟩ := h
  obtain ⟨j, c, s, rfl⟩ := mockBlocks_mem code lang ps i b hb
  exact overall_header_not_in_block code lang j c s hmem

theorem mockReportLines_count_header (code : String) (comments : List String)
    (lang : String) (sevs : List String) :
    (mockReportLines code comments lang sevs).count "**Overall Summary**\n" = 1 := by
  unfold mockReportLines
  rw [List.count_cons, List.count_append]
  have h1 : (mockBlocks code lang 1 (comments.zip sevs)).flatten.count "**Overall Summary**\n" = 0 :=
    List.count_eq_zero.mpr (overall_header_not_in_flatten _ _ _ _)
  rw [h1]
  decide


theorem digitChar_ne_backtick (k : Nat) (h : k < 10) : Nat.digitChar k ≠ '\x60' := by
  interval_cases k <;> decide

theorem toDigitsCore_ne_backtick :
    ∀ (fuel n : Nat) (ds : List Char), (∀ c ∈ ds, c ≠ '\x60') →
      ∀ c ∈ Nat.toDigitsCore 10 fuel n ds, c ≠ '\x60' := by
  intro fuel
  induction fuel with
  | zero => intro n ds hds c hc; exact hds c hc
  | succ f ih =>
    intro n ds hds c hc
    rw [show Nat.toDigitsCore 10 (f + 1) n ds
        = if n / 10 = 0 then Nat.digitChar (n % 10) :: ds
          else Nat.toDigitsCore 10 f (n / 10) (Nat.digitChar (n % 10) :: ds) from rfl] at hc
    have hdig : ∀ x ∈ Nat.digitChar (n % 10) :: ds, x ≠ '\x60' := by
      intro x hx
      rcases List.mem_cons.mp hx with rfl | hx2
      · exact digitChar_ne_backtick (n % 10) (Nat.mod_lt _ (by omega))
      · exact hds x hx2
    split at hc
    · exact hdig c hc
    · exact ih (n / 10) (Nat.digitChar (n % 10) :: ds) hdig c hc

theorem toDigitsCore_ne_nil :
    ∀ (fuel n : Nat) (ds : List Char), ds ≠ [] ∨ fuel ≠ 0 →
      Nat.toDigitsCore 10 fuel n ds ≠ [] := by
  intro fuel
  induction fuel with
  | zero =>
    intro n ds h
    rcases h with h | h
    · exact h
    · exact absurd rfl h
  | succ f ih =>
    intro n ds h
    rw [show Nat.toDigitsCore 10 (f + 1) n ds
        = if n / 10 = 0 then Nat.digitChar (n % 10) :: ds
          else Nat.toDigitsCore 10 f (n / 10) (Nat.digitChar (n % 10) :: ds) from rfl]
    split
    · simp
    · exact ih (n / 10) _ (Or.inl (by simp))

theorem toString_nat_fence_false (n : Nat) (rest : String) :
    strStartsWith (toString n ++ rest) "```" = false := by
  unfold strStartsWith
  rw [String.data_append]
  have hd : (toString n).data = Nat.toDigits 10 n := rfl
  rw [hd]
  cases he : Nat.toDigits 10 n with
  | nil =>
    have hne : Nat.toDigitsCore 10 (n + 1) n [] ≠ [] :=
      toDigitsCore_ne_nil (n + 1) n [] (Or.inr (by omega))
    rw [show Nat.toDigitsCore 10 (n + 1) n [] = Nat.toDigits 10 n from rfl] at hne
    exact absurd he hne
  | cons c cs =>
    have hmem : c ∈ Nat.toDigitsCore 10 (n + 1) n [] := by
      rw [show Nat.toDigitsCore 10 (n + 1) n [] = Nat.toDigits 10 n from rfl, he]
      exact List.mem_cons_self c cs
    have hc : c ≠ '\x60' :=
      toDigitsCore_ne_backtick (n + 1) n [] (by simp) c hmem
    have hb : ('\x60' == c) = false := beq_eq_false_iff_ne.mpr (Ne.symm hc)
    show (('\x60' == c) && List.isPrefixOf ['\x60', '\x60'] (cs ++ rest.data)) = false
    rw [hb, Bool.false_and]

theorem pyJoin_append (sep : String) :
    ∀ (l1 l2 : List String), l1 ≠ [] → l2 ≠ [] →
      pyJoin sep (l1 ++ l2) = pyJoin sep l1 ++ sep ++ pyJoin sep l2 := by
  intro l1
  induction l1 with
  | nil => intro l2 h1 h2; exact absurd rfl h1
  | cons x xs ih =>
    intro l2 h1 h2
    cases xs with
    | nil =>
      cases l2 with
      | nil => exact absurd rfl h2
      | cons y ys => rfl
    | cons z zs =>
      have hx := ih l2 (by simp) h2
      show pyJoin sep (x :: ((z :: zs) ++ l2)) = _
      have hcons : ∀ (w : String) (ws : List String) (h : ws ≠ []),
          pyJoin sep (w :: ws) = w ++ sep ++ pyJoin sep ws := by
        intro w ws h
        cases ws with
        | nil => exact absurd rfl h
        | cons a as => rfl
      rw [hcons x ((z :: zs) ++ l2) (by simp), hx,
          hcons x (z :: zs) (by simp)]
      simp [String.append_assoc]

theorem commentAnalysisLines_ne_nil (i0 : Nat) (q : String × String)
    (ps : List (String × String)) :
    commentAnalysisLines i0 (q :: ps) ≠ [] := by
  cases q with
  | mk c sv => simp [commentAnalysisLines]

theorem commentAnalysisLines_mem :
    ∀ (ps : List (String × String)) (i0 : Nat) (l : String),
      l ∈ commentAnalysisLines i0 ps →
      ∃ j c sv, l = toString (j + 1) ++ (". \"" ++ (c ++ ("\" (Severity: " ++ (sv ++ ")")))) := by
  intro ps
  induction ps with
  | nil => intro i0 l hl; cases hl
  | cons q rest ih =>
    intro i0 l hl
    cases q with
    | mk c sv =>
      rcases List.mem_cons.mp hl with rfl | hl2
      · exact ⟨i0, c, sv, by simp [String.append_assoc]⟩
      · exact ih (i0 + 1) l hl2

set_option maxRecDepth 8192 in
set_option maxHeartbeats 1600000 in
theorem create_detailed_prompt_eq_lines (code_snippet : String)
    (review_comments : List String) (language : String)
    (severity_levels : List String)
    (hz : review_comments.zip severity_levels ≠ []) :
    create_detailed_prompt code_snippet review_comments language severity_levels
      = pyJoin "\n" (promptLines code_snippet review_comments language severity_levels) := by
  obtain ⟨q, qs, hq⟩ : ∃ q qs, review_comments.zip severity_levels = q :: qs := by
    cases h : review_comments.zip severity_levels with
    | nil => exact absurd h hz
    | cons q qs => exact ⟨q, qs, rfl⟩
  unfold promptLines
  rw [pyJoin_append "\n" _ _ (by simp) (by simp),
      pyJoin_append "\n" _ _ (by simp) (by rw [hq]; exact commentAnalysisLines_ne_nil 0 q qs)]
  apply String.ext
  unfold create_detailed_prompt
  simp only [pyJoin, String.data_append]
  simp [List.append_assoc]

/-! ## Claim theorems -/

/-- C3: language detection is a total, deterministic function of the
snippet applying the six ordered checks of §4.1 and returning the first
match (`detect_language_spec` is written from the spec wording); every
input maps to a tag, and the empty string maps to Unknown.  Totality and
determinism are inherent: `detect_language` is a total Lean function. -/
theorem detect_language_ordered_total :
    (∀ code, detect_language code = detect_language_spec code) ∧
    detect_language "" = "Unknown" := by
  constructor
  · intro code
    unfold detect_language detect_language_spec
    simp only [Bool.and_eq_true, Bool.or_eq_true]
  · decide

/-- C2: severity classification is the case-insensitive substring search
of §4.2 (`assess_comment_severity_spec` is written from the spec
wording); the worked example classifies harsh, and any harsh-vocabulary
hit yields `"harsh"` regardless of critical-vocabulary hits — harsh
takes precedence. -/
theorem assess_severity_spec_and_precedence :
    (∀ comment, assess_comment_severity comment = assess_comment_severity_spec comment) ∧
    assess_comment_severity "This is terrible and inefficient" = "harsh" ∧
    (∀ comment,
      (harsh_words.any fun w => strContainsSub (pyLower comment) w) = true →
      assess_comment_severity comment = "harsh") := by
  refine ⟨fun c => rfl, by decide, ?_⟩
  intro comment h
  unfold assess_comment_severity
  simp [h]

/-- Witness for C2 at a comment containing both a harsh word ("wrong")
and a critical word ("redundant"). -/
theorem assess_severity_precedence_witness :
    (harsh_words.any fun w => strContainsSub (pyLower "Totally wrong and redundant") w) = true ∧
    assess_comment_severity "Totally wrong and redundant" = "harsh" :=
  ⟨by decide,
    assess_severity_spec_and_precedence.2.2 "Totally wrong and redundant" (by decide)⟩

/-- C9: the mock synthesizer is deterministic and idempotent — two
invocations of `create_mock_report` with identical arguments produce
byte-identical strings.  The embedding is a total, effect-free function,
reflecting that `_create_mock_report` reads nothing but its arguments
and performs no I/O. -/
theorem create_mock_report_deterministic :
    ∀ (c1 c2 : String) (m1 m2 : List String) (l1 l2 : String) (v1 v2 : List String),
      c1 = c2 → m1 = m2 → l1 = l2 → v1 = v2 →
      create_mock_report c1 m1 l1 v1 = create_mock_report c2 m2 l2 v2 := by
  intro c1 c2 m1 m2 l1 l2 v1 v2 h1 h2 h3 h4
  rw [h1, h2, h3, h4]

/-- Witness for C9: two identical concrete invocations agree. -/
theorem create_mock_report_deterministic_witness :
    ("def f(): pass" : String) = "def f(): pass" ∧
    create_mock_report "def f(): pass" ["ok"] "Python" ["mild"]
      = create_mock_report "def f(): pass" ["ok"] "Python" ["mild"] :=
  ⟨rfl, create_mock_report_deterministic "def f(): pass" "def f(): pass"
    ["ok"] ["ok"] "Python" "Python" ["mild"] ["mild"] rfl rfl rfl rfl⟩

/-- C8: the suggested-improvement fence of every mock block contains the
constant placeholder comment and `mockImprovementLine`, which is the
first line of the snippet when the snippet is nonempty (the extraction
`splitlines()[0]` cannot fail there, since `splitlines` of a nonempty
string is nonempty) and the placeholder line when the snippet is empty. -/
theorem mock_first_line_total_and_present :
    (∀ code, code ≠ "" → (pySplitlines code).head? = some (mockImprovementLine code)) ∧
    mockImprovementLine "" = "# (no code provided)" ∧
    (∀ code lang i comment severity,
      "# Example improvement (mock)\n# Replace with a specific change based on context"
          ∈ mockCommentBlock code lang i comment severity ∧
      mockImprovementLine code ∈ mockCommentBlock code lang i comment severity) := by
  refine ⟨?_, rfl, ?_⟩
  · intro code hc
    cases hl : pySplitlines code with
    | nil => exact absurd hl (pySplitlines_ne_nil code hc)
    | cons x xs => simp [mockImprovementLine, hc, hl]
  · intro code lang i comment severity
    constructor <;> simp [mockCommentBlock]

/-- Witness for C8 at a two-line snippet. -/
theorem mock_first_line_witness :
    ("def f():\n  return 1" : String) ≠ "" ∧
    (pySplitlines "def f():\n  return 1").head? = some (mockImprovementLine "def f():\n  return 1") :=
  ⟨by decide,
    mock_first_line_total_and_present.1 "def f():\n  return 1" (by decide)⟩

/-- C5: when the effective offline/mock flag is off and any of the four
backend configuration variables is absent (unset or empty), construction
fails with the configuration `ValueError`, whose message names every
missing variable; when the effective mock flag is on, construction
succeeds whatever the backend configuration.  The failure is raised by
`__init__`, i.e. before any request is processed. -/
theorem init_config_validation :
    ∀ (use_mock : Bool) (env : Env),
      (effectiveUseMock use_mock env = true →
        initReviewer use_mock env =
          .ok ⟨true, env.api_key, env.endpoint, env.api_version, env.deployment_name⟩) ∧
      (effectiveUseMock use_mock env = false → missingVars env ≠ [] →
        initReviewer use_mock env =
          .error ("Missing required environment variables: " ++ pyJoin ", " (missingVars env)) ∧
        ∀ name ∈ missingVars env,
          strContainsSub
            ("Missing required environment variables: " ++ pyJoin ", " (missingVars env))
            name = true) := by
  intro use_mock env
  constructor
  · intro hm
    simp [initReviewer, hm]
  · intro hm hmv
    refine ⟨by simp [initReviewer, hm, hmv], ?_⟩
    intro name hname
    exact strContainsSub_append_right _ _ _ (pyJoin_mem_sub ", " _ name hname)

/-- Witness for C5: with only the API key missing and mock off, the
constructor fails and the message names the key; with the mock flag on,
the same environment is accepted. -/
theorem init_config_validation_witness :
    effectiveUseMock false ⟨none, none, some "https://x/", some "v1", some "d1"⟩ = false ∧
    missingVars ⟨none, none, some "https://x/", some "v1", some "d1"⟩ ≠ [] ∧
    initReviewer false ⟨none, none, some "https://x/", some "v1", some "d1"⟩ =
      .error "Missing required environment variables: AZURE_OPENAI_API_KEY" ∧
    strContainsSub "Missing required environment variables: AZURE_OPENAI_API_KEY"
      "AZURE_OPENAI_API_KEY" = true ∧
    effectiveUseMock true ⟨none, none, some "https://x/", some "v1", some "d1"⟩ = true ∧
    initReviewer true ⟨none, none, some "https://x/", some "v1", some "d1"⟩ =
      .ok ⟨true, none, some "https://x/", some "v1", some "d1"⟩ := by
  refine ⟨by decide, by decide, ?_, ?_, by decide, ?_⟩
  · exact ((init_config_validation false ⟨none, none, some "https://x/", some "v1", some "d1"⟩).2 (by decide) (by decide)).1
  · exact ((init_config_validation false ⟨none, none, some "https://x/", some "v1", some "d1"⟩).2 (by decide) (by decide)).2
      "AZURE_OPENAI_API_KEY" (by decide)
  · exact (init_config_validation true ⟨none, none, some "https://x/", some "v1", some "d1"⟩).1 (by decide)

/-- C6: in remote mode (with valid input), a successful backend call
yields the extracted content verbatim up to whitespace trimming, and
every failure — non-success HTTP status, unparseable/ill-shaped body, or
a raised timeout/network error — produces exactly one error that wraps
the underlying cause; there is no retry and no partial report. -/
theorem remote_mode_result_contract :
    ∀ (code : String) (comments : List String) (outcome : CallOutcome),
      code ≠ "" → comments ≠ [] →
      (∀ content, call_azure_openai outcome = .ok content →
        generate_empathetic_review false outcome code comments = .ok (pyStrip content)) ∧
      (∀ cause, call_azure_openai outcome = .error cause →
        generate_empathetic_review false outcome code comments =
          .error ("Failed to generate review: " ++ cause)) ∧
      (∀ status contentParse text, status ≠ 200 →
        call_azure_openai (.response status contentParse text) =
          .error ("Azure OpenAI API error: " ++ toString status ++ " - " ++ text)) ∧
      (∀ text msg, call_azure_openai (.response 200 (.error msg) text) = .error msg) ∧
      (∀ cause, call_azure_openai (.netError cause) = .error cause) := by
  intro code comments outcome hc hm
  refine ⟨?_, ?_, ?_, fun text msg => rfl, fun cause => rfl⟩
  · intro content h
    simp [generate_empathetic_review, hc, hm, h]
  · intro cause h
    simp [generate_empathetic_review, hc, hm, h]
  · intro status contentParse text hstatus
    simp [call_azure_openai, hstatus]

/-- Witness for C6: a concrete success is trimmed and returned; a
concrete 500 response is wrapped in a single `GenerationFailure`. -/
theorem remote_mode_result_contract_witness :
    ("def f(): pass" : String) ≠ "" ∧ (["ok"] : List String) ≠ [] ∧
    generate_empathetic_review false (.response 200 (.ok "  report body \n") "raw")
      "def f(): pass" ["ok"] = .ok "report body" ∧
    generate_empathetic_review false (.response 500 (.ok "ignored") "boom")
      "def f(): pass" ["ok"] =
      .error "Failed to generate review: Azure OpenAI API error: 500 - boom" := by
  refine ⟨by decide, by decide, ?_, ?_⟩
  · exact (remote_mode_result_contract "def f(): pass" ["ok"]
      (.response 200 (.ok "  report body \n") "raw") (by decide) (by decide)).1
      "  report body \n" rfl
  · exact ((remote_mode_result_contract "def f(): pass" ["ok"]
      (.response 500 (.ok "ignored") "boom") (by decide) (by decide)).2.1
      "Azure OpenAI API error: 500 - boom"
      rfl)

theorem mockImprovementLine_congr (s1 s2 : String) (h1 : s1 ≠ "") (h2 : s2 ≠ "")
    (hhead : (pySplitlines s1).head? = (pySplitlines s2).head?) :
    mockImprovementLine s1 = mockImprovementLine s2 := by
  unfold mockImprovementLine
  rw [if_pos h1, if_pos h2]
  cases e1 : pySplitlines s1 with
  | nil =>
    cases e2 : pySplitlines s2 with
    | nil => rfl
    | cons y ys => rw [e1, e2] at hhead; cases hhead
  | cons x xs =>
    cases e2 : pySplitlines s2 with
    | nil => rw [e1, e2] at hhead; cases hhead
    | cons y ys =>
      rw [e1, e2] at hhead
      injection hhead

theorem mockBlocks_congr (s1 s2 lang : String)
    (h : mockImprovementLine s1 = mockImprovementLine s2) :
    ∀ (ps : List (String × String)) (i : Nat),
      mockBlocks s1 lang i ps = mockBlocks s2 lang i ps := by
  intro ps
  induction ps with
  | nil => intro i; rfl
  | cons p rest ih =>
    intro i
    cases p with
    | mk c sv => simp [mockBlocks, mockCommentBlock, h, ih]

/-- C10: in mock mode the report depends on the snippet only through its
first line and its detected language: two valid requests with the same
comments whose snippets agree on the first line and the detected
language produce byte-identical reports. -/
theorem mock_report_first_line_language_dependence :
    ∀ (out : CallOutcome) (s1 s2 : String) (comments : List String),
      s1 ≠ "" → s2 ≠ "" → comments ≠ [] →
      (pySplitlines s1).head? = (pySplitlines s2).head? →
      detect_language s1 = detect_language s2 →
      generate_empathetic_review true out s1 comments =
        generate_empathetic_review true out s2 comments := by
  intro out s1 s2 comments h1 h2 hm hhead hlang
  have himp := mockImprovementLine_congr s1 s2 h1 h2 hhead
  simp only [generate_empathetic_review, h1, h2, hm, if_true, ite_true]
  simp only [← hlang]
  unfold create_mock_report mockReportLines
  rw [mockBlocks_congr s1 s2 (detect_language s1) himp]

/-- Witness for C10: two snippets equal on the first line (and language)
but different afterwards give the same mock report. -/
theorem mock_report_first_line_language_dependence_witness :
    ("def f(x):\n  return x" : String) ≠ "" ∧
    ("def f(x):\n  return x + 1" : String) ≠ "" ∧
    (pySplitlines "def f(x):\n  return x").head?
      = (pySplitlines "def f(x):\n  return x + 1").head? ∧
    detect_language "def f(x):\n  return x" = detect_language "def f(x):\n  return x + 1" ∧
    generate_empathetic_review true (.netError "unused") "def f(x):\n  return x" ["ok"] =
      generate_empathetic_review true (.netError "unused") "def f(x):\n  return x + 1" ["ok"] :=
  ⟨by decide, by decide, by decide, by decide,
    mock_report_first_line_language_dependence (.netError "unused")
      "def f(x):\n  return x" "def f(x):\n  return x + 1" ["ok"]
      (by decide) (by decide) (by decide) (by decide) (by decide)⟩

/-- C1: for every valid request in mock mode the pipeline returns the
joined mock report, whose line list is the separator followed by exactly
one block per input comment — block `k` (0-based) carrying the 1-based
header that quotes comment `k` verbatim — followed by exactly one
"Overall Summary" header, positioned after all per-comment blocks, which
occurs exactly once among the report lines. -/
theorem mock_report_sections_in_order :
    ∀ (out : CallOutcome) (code : String) (comments : List String),
      code ≠ "" → comments ≠ [] →
      generate_empathetic_review true out code comments =
        .ok (create_mock_report code comments (detect_language code)
          (comments.map assess_comment_severity)) ∧
      mockReportLines code comments (detect_language code)
          (comments.map assess_comment_severity) =
        "---" :: ((mockBlocks code (detect_language code) 1
            (comments.zip (comments.map assess_comment_severity))).flatten
          ++ ["**Overall Summary**\n", overallSummaryText]) ∧
      (mockBlocks code (detect_language code) 1
          (comments.zip (comments.map assess_comment_severity))).length
        = comments.length ∧
      (∀ k c, comments.get? k = some c →
        (mockBlocks code (detect_language code) 1
            (comments.zip (comments.map assess_comment_severity))).get? k
          = some (mockCommentBlock code (detect_language code) (1 + k) c
              (assess_comment_severity c)) ∧
        (mockCommentBlock code (detect_language code) (1 + k) c
            (assess_comment_severity c)).head?
          = some ("### Analysis of Comment " ++ toString (1 + k) ++ ": \"" ++ c ++ "\"")) ∧
      (mockReportLines code comments (detect_language code)
          (comments.map assess_comment_severity)).count "**Overall Summary**\n" = 1 := by
  intro out code comments hc hm
  refine ⟨by simp [generate_empathetic_review, hc, hm], rfl, ?_, ?_,
    mockReportLines_count_header code comments _ _⟩
  · rw [mockBlocks_length, zip_self_map, List.length_map]
  · intro k c hk
    refine ⟨?_, rfl⟩
    rw [mockBlocks_get?, zip_self_map, List.get?_eq_getElem?, List.getElem?_map, ← List.get?_eq_getElem?, hk]
    rfl

/-- Witness for C1 at a two-comment request. -/
theorem mock_report_sections_in_order_witness :
    ("def add(a, b):\n  return a + b" : String) ≠ "" ∧
    (["This name is bad", "This is inefficient"] : List String) ≠ [] ∧
    generate_empathetic_review true (.netError "unused")
        "def add(a, b):\n  return a + b" ["This name is bad", "This is inefficient"] =
      .ok (create_mock_report "def add(a, b):\n  return a + b"
        ["This name is bad", "This is inefficient"]
        (detect_language "def add(a, b):\n  return a + b")
        (["This name is bad", "This is inefficient"].map assess_comment_severity)) ∧
    (mockBlocks "def add(a, b):\n  return a + b"
        (detect_language "def add(a, b):\n  return a + b") 1
        (["This name is bad", "This is inefficient"].zip
          (["This name is bad", "This is inefficient"].map assess_comment_severity))).length = 2 ∧
    (mockBlocks "def add(a, b):\n  return a + b"
        (detect_language "def add(a, b):\n  return a + b") 1
        (["This name is bad", "This is inefficient"].zip
          (["This name is bad", "This is inefficient"].map assess_comment_severity))).get? 0
      = some (mockCommentBlock "def add(a, b):\n  return a + b"
          (detect_language "def add(a, b):\n  return a + b") (1 + 0) "This name is bad"
          (assess_comment_severity "This name is bad")) ∧
    (mockReportLines "def add(a, b):\n  return a + b"
        ["This name is bad", "This is inefficient"]
        (detect_language "def add(a, b):\n  return a + b")
        (["This name is bad", "This is inefficient"].map assess_comment_severity)).count
      "**Overall Summary**\n" = 1 := by
  refine ⟨by decide, by decide, ?_, ?_, ?_, ?_⟩
  · exact (mock_report_sections_in_order (.netError "unused")
      "def add(a, b):\n  return a + b" ["This name is bad", "This is inefficient"]
      (by decide) (by decide)).1
  · exact (mock_report_sections_in_order (.netError "unused")
      "def add(a, b):\n  return a + b" ["This name is bad", "This is inefficient"]
      (by decide) (by decide)).2.2.1
  · exact ((mock_report_sections_in_order (.netError "unused")
      "def add(a, b):\n  return a + b" ["This name is bad", "This is inefficient"]
      (by decide) (by decide)).2.2.2.1 0 "This name is bad" rfl).1
  · exact (mock_report_sections_in_order (.netError "unused")
      "def add(a, b):\n  return a + b" ["This name is bad", "This is inefficient"]
      (by decide) (by decide)).2.2.2.2

/-- C7: every fenced code block the pipeline emits is tagged with the
lower-cased detected language.  For the composed prompt this is
universal: the prompt equals the newline-join of its emitted segment
list `promptLines`, and every segment of that list that begins a fence
is the tagged opener or the bare closer; likewise every line of the mock
report.  The two `strStartsWith` hypotheses only rule out the quoted
snippet content itself spelling a fence opener — content, not an emitted
fence.  The concluding conjuncts check end-to-end scenario B: a snippet
containing `function foo() { }` detects as JavaScript and every fence
line of both the prompt segments and the mock report is tagged
`javascript` (or is the untagged closing fence). -/
theorem fenced_blocks_language_tagged :
    ∀ (code : String) (comments : List String),
      code ≠ "" → comments ≠ [] →
      strStartsWith (mockImprovementLine code) "```" = false →
      strStartsWith code "```" = false →
      create_detailed_prompt code comments (detect_language code)
          (comments.map assess_comment_severity)
        = pyJoin "\n" (promptLines code comments (detect_language code)
            (comments.map assess_comment_severity)) ∧
      (∀ line ∈ promptLines code comments (detect_language code)
          (comments.map assess_comment_severity),
        strStartsWith line "```" = true →
          line = "```" ++ pyLower (detect_language code) ∨ line = "```") ∧
      (∀ line ∈ mockReportLines code comments (detect_language code)
          (comments.map assess_comment_severity),
        strStartsWith line "```" = true →
          line = "```" ++ pyLower (detect_language code) ∨ line = "```") ∧
      detect_language "function foo() \x7b \x7d" = "JavaScript" ∧
      assess_comment_severity "This is inefficient." = "critical" ∧
      (promptLines "function foo() \x7b \x7d" ["This is inefficient."]
          "JavaScript" ["critical"]).all
        (fun line => !strStartsWith line "```"
          || (line == "```javascript" || line == "```")) = true ∧
      (mockReportLines "function foo() \x7b \x7d" ["This is inefficient."]
          "JavaScript" ["critical"]).all
        (fun line => !strStartsWith line "```"
          || (line == "```javascript" || line == "```")) = true := by
  intro code comments hc hm himp hcode
  refine ⟨?_, ?_, ?_, by decide, by decide, by decide, by decide⟩
  · apply create_detailed_prompt_eq_lines
    rw [zip_self_map]
    cases comments with
    | nil => exact absurd rfl hm
    | cons a as => simp
  · intro line hline hstart
    unfold promptLines at hline
    rcases List.mem_append.mp hline with h1 | h2
    · rcases List.mem_append.mp h1 with hpre | hana
      · simp only [List.mem_cons, List.not_mem_nil, or_false] at hpre
        rcases hpre with rfl | rfl | rfl | rfl | rfl | rfl | rfl | rfl | rfl
        · exact absurd hstart (by decide)
        · exact absurd hstart (by decide)
        · exact absurd hstart (by decide)
        · simp only [String.append_assoc] at hstart
          rw [strStartsWith_append_of_short "**Code Snippet (" _ "```"
            (by decide) (by decide)] at hstart
          cases hstart
        · exact Or.inl rfl
        · rw [hcode] at hstart
          cases hstart
        · exact Or.inr rfl
        · exact absurd hstart (by decide)
        · exact absurd hstart (by decide)
      · obtain ⟨j, cm, sv, rfl⟩ := commentAnalysisLines_mem _ 0 line hana
        rw [toString_nat_fence_false (j + 1) _] at hstart
        cases hstart
    · simp only [List.mem_cons, List.not_mem_nil, or_false] at h2
      rcases h2 with rfl | rfl | rfl | rfl | rfl | rfl | rfl | rfl | rfl | rfl | rfl | rfl | rfl | rfl | rfl | rfl | rfl | rfl | rfl | rfl | rfl | rfl | rfl | rfl | rfl | rfl | rfl | rfl | rfl | rfl | rfl | rfl | rfl | rfl
      · exact absurd hstart (by decide)
      · exact absurd hstart (by decide)
      · exact absurd hstart (by decide)
      · exact absurd hstart (by decide)
      · exact absurd hstart (by decide)
      · exact absurd hstart (by decide)
      · exact absurd hstart (by decide)
      · exact absurd hstart (by decide)
      · exact absurd hstart (by decide)
      · exact absurd hstart (by decide)
      · exact absurd hstart (by decide)
      · exact absurd hstart (by decide)
      · exact Or.inl rfl
      · exact absurd hstart (by decide)
      · exact Or.inr rfl
      · exact absurd hstart (by decide)
      · exact absurd hstart (by decide)
      · exact absurd hstart (by decide)
      · exact absurd hstart (by decide)
      · exact absurd hstart (by decide)
      · exact absurd hstart (by decide)
      · exact absurd hstart (by decide)
      · exact absurd hstart (by decide)
      · exact absurd hstart (by decide)
      · exact absurd hstart (by decide)
      · exact absurd hstart (by decide)
      · exact absurd hstart (by decide)
      · exact absurd hstart (by decide)
      · exact absurd hstart (by decide)
      · exact absurd hstart (by decide)
      · exact absurd hstart (by decide)
      · exact absurd hstart (by decide)
      · exact absurd hstart (by decide)
      · exact absurd hstart (by decide)
  · intro line hline hstart
    unfold mockReportLines at hline
    rcases List.mem_cons.mp hline with rfl | hline1
    · exact absurd hstart (by decide)
    · rcases List.mem_append.mp hline1 with hfl | hlast
      · obtain ⟨b, hb, hmem⟩ := List.mem_flatten.mp hfl
        obtain ⟨j, c, sv, rfl⟩ := mockBlocks_mem code (detect_language code) _ 1 b hb
        simp only [mockCommentBlock, List.mem_cons, List.not_mem_nil, or_false] at hmem
        rcases hmem with rfl | rfl | rfl | rfl | rfl | rfl | rfl | rfl | rfl | rfl | rfl | rfl | rfl | rfl
        · simp only [String.append_assoc] at hstart
          rw [strStartsWith_append_of_short "### Analysis of Comment " _ "```"
            (by decide) (by decide)] at hstart
          cases hstart
        · exact absurd hstart (by decide)
        · exact absurd hstart (by decide)
        · exact absurd hstart (by decide)
        · rw [strStartsWith_append_of_short "* **The \x27Why\x27:** " _ "```"
            (by decide) (by decide)] at hstart
          cases hstart
        · exact absurd hstart (by decide)
        · exact absurd hstart (by decide)
        · exact Or.inl rfl
        · exact absurd hstart (by decide)
        · rw [himp] at hstart
          cases hstart
        · exact Or.inr rfl
        · exact absurd hstart (by decide)
        · exact absurd hstart (by decide)
        · exact absurd hstart (by decide)
      · rcases List.mem_cons.mp hlast with rfl | hlast2
        · exact absurd hstart (by decide)
        · rcases List.mem_singleton.mp hlast2 with rfl
          exact absurd hstart (by decide)

/-- Witness for C7 at end-to-end scenario B: the hypotheses hold for the
scenario snippet, and the prompt decomposes into its emitted segments. -/
theorem fenced_blocks_language_tagged_witness :
    ("function foo() \x7b \x7d" : String) ≠ "" ∧
    (["This is inefficient."] : List String) ≠ [] ∧
    strStartsWith (mockImprovementLine "function foo() \x7b \x7d") "```" = false ∧
    strStartsWith "function foo() \x7b \x7d" "```" = false ∧
    create_detailed_prompt "function foo() \x7b \x7d" ["This is inefficient."]
        (detect_language "function foo() \x7b \x7d")
        (["This is inefficient."].map assess_comment_severity)
      = pyJoin "\n" (promptLines "function foo() \x7b \x7d" ["This is inefficient."]
          (detect_language "function foo() \x7b \x7d")
          (["This is inefficient."].map assess_comment_severity)) := by
  refine ⟨by decide, by decide, by decide, by decide, ?_⟩
  exact (fenced_blocks_language_tagged "function foo() \x7b \x7d"
    ["This is inefficient."] (by decide) (by decide) (by decide) (by decide)).1

/-- C4 (amended): validation runs before any detection or classification
work for the falsy cases — an empty (falsy) `code_snippet` fails with
the `InvalidInput` `ValueError` and zero severity classifications, and
an empty (falsy) `review_comments` fails with the `InvalidInput`
`ValueError` — but a truthy non-sequence `review_comments` (e.g. a
non-zero integer) is not rejected by validation: language detection runs
and the pipeline then raises `TypeError` during comment iteration, not
`InvalidInput`.  Zero classifications are performed and no report is
produced in every failing case. -/
theorem dyn_validation_order :
    ∀ (codeVal commentsVal : PyVal),
      (codeVal.truthy = false →
        generateReviewDyn codeVal commentsVal
          = (.error (.valueError "code_snippet is required"), 0)) ∧
      (codeVal.truthy = true → commentsVal.truthy = false →
        generateReviewDyn codeVal commentsVal
          = (.error (.valueError "review_comments list cannot be empty"), 0)) ∧
      (∀ code n, code ≠ "" → n ≠ 0 →
        generateReviewDyn (.vstr code) (.vint n)
          = (.error (.typeError "int object is not iterable"), 0)) := by
  intro codeVal commentsVal
  refine ⟨?_, ?_, ?_⟩
  · intro h
    simp [generateReviewDyn, h]
  · intro h1 h2
    simp [generateReviewDyn, h1, h2]
  · intro code n h1 h2
    simp [generateReviewDyn, PyVal.truthy, h1, h2, pyIter]

/-- Witness for the amended C4 statement at concrete inputs. -/
theorem dyn_validation_order_witness :
    PyVal.truthy (.vstr "") = false ∧
    generateReviewDyn (.vstr "") (.vlist [.vstr "ok"])
      = (.error (.valueError "code_snippet is required"), 0) ∧
    PyVal.truthy (.vstr "def f(): pass") = true ∧
    PyVal.truthy (.vlist []) = false ∧
    generateReviewDyn (.vstr "def f(): pass") (.vlist [])
      = (.error (.valueError "review_comments list cannot be empty"), 0) ∧
    generateReviewDyn (.vstr "def f(): pass") (.vint 5)
      = (.error (.typeError "int object is not iterable"), 0) := by
  refine ⟨rfl, ?_, rfl, rfl, ?_, ?_⟩
  · exact (dyn_validation_order (.vstr "") (.vlist [.vstr "ok"])).1 rfl
  · exact (dyn_validation_order (.vstr "def f(): pass") (.vlist [])).2.1 rfl rfl
  · exact (dyn_validation_order (.vstr "def f(): pass") (.vlist [])).2.2
      "def f(): pass" 5 (by decide) (by decide)

/-- Counterexample to C4 as stated: for the truthy non-sequence
`review_comments` value `5`, the pipeline does not fail with the
`InvalidInput` `ValueError` — it raises a `TypeError` when iterating the
comments, after language detection has already run. -/
theorem dyn_nonsequence_counterexample :
    isInvalidInput (generateReviewDyn (.vstr "def f(): pass") (.vint 5)).1 = false ∧
    (generateReviewDyn (.vstr "def f(): pass") (.vint 5)).1
      = .error (.typeError "int object is not iterable") := by
  exact ⟨rfl, rfl⟩

end CodeReviewer
